import Mathlib

/-!
Verification development for the ClickRec_60 video recorder.

The definitions below are shallow embeddings of the Python source
(`ClickRec_60.py` and `ClickRec_60_test.py`): pure parsing helpers are
translated directly, stateful methods become explicit state-passing
functions, and the external backends (ffmpeg subprocess calls, the
capture stream, the encoder) are modelled by the data they hand back to
the program, which is the only part of their behaviour the code inspects.
-/

/-! ## Character and string helpers (Python `in`, `re`, `str.split`, …) -/

/-- Tests whether the pattern (first argument) is an initial segment of the
list (second argument); mirrors a regex literal matching at a position. -/
def leadsWith : List Char → List Char → Bool
  | [], _ => true
  | _ :: _, [] => false
  | p :: ps, c :: cs => p == c && leadsWith ps cs

/-- Python's substring test `pat in l`. -/
def strContains : List Char → List Char → Bool
  | [], pat => leadsWith pat []
  | c :: rest, pat => leadsWith pat (c :: rest) || strContains rest pat

/-- Numeric value of a decimal digit character. -/
def digitVal (c : Char) : Nat := c.toNat - 48

/-- Python `int` on a digit string (the regex groups are all `\d+`). -/
def digitsToNat (ds : List Char) : Nat := ds.foldl (fun a c => a * 10 + digitVal c) 0

/-- Maximal run of decimal digits and the rest, i.e. greedy `\d+`. -/
def takeDigits (l : List Char) : List Char × List Char :=
  (l.takeWhile Char.isDigit, l.dropWhile Char.isDigit)

/-- ASCII whitespace recognised by the regex class `\s`. -/
def isPySpace (c : Char) : Bool :=
  c == ' ' || c == '\t' || c == '\n' || c == '\r' || c == '\x0b' || c == '\x0c'

/-- Maximal run of whitespace and the rest, i.e. greedy `\s+`. -/
def takeSpaces (l : List Char) : List Char × List Char :=
  (l.takeWhile isPySpace, l.dropWhile isPySpace)

/-! ## Capability probe: `RecorderApp.get_supported_resolutions`

The method runs `ffmpeg -list_options`, keeps the stderr lines, checks that
some line mentions `vcodec=mjpeg`, and extracts `(w, h, fps)` from every
line containing both `vcodec=mjpeg` and `fps=` via
`re.search(r"max s=(\d+)x(\d+)\s+fps=(\d+)", line)`.  The regex is embedded
exactly: because each `\d+`/`\s+` is followed by a character it can never
match, greedy matching with backtracking coincides with maximal munch, and
`re.search` tries successive start positions, i.e. successive occurrences
of the literal anchor `max s=`. -/

def mjpegTag : List Char := "vcodec=mjpeg".toList

def fpsTag : List Char := "fps=".toList

def sizeAnchor : List Char := "max s=".toList

/-- Attempts the tail of the pattern right after the anchor `max s=`:
digits, `x`, digits, whitespace, `fps=`, digits. -/
def matchAfterAnchor (l : List Char) : Option (Nat × Nat × Nat) :=
  let (d1, r1) := takeDigits l
  if d1.isEmpty then none else
  match r1 with
  | 'x' :: r2 =>
    let (d2, r3) := takeDigits r2
    if d2.isEmpty then none else
    let (sp, r4) := takeSpaces r3
    if sp.isEmpty then none else
    if leadsWith fpsTag r4 then
      let (d3, _) := takeDigits (r4.drop fpsTag.length)
      if d3.isEmpty then none else
      some (digitsToNat d1, digitsToNat d2, digitsToNat d3)
    else none
  | _ => none

/-- `re.search` for the size pattern: first position whose text starts with
the anchor and whose remainder completes the pattern. -/
def searchSize : List Char → Option (Nat × Nat × Nat)
  | [] => none
  | c :: rest =>
    if leadsWith sizeAnchor (c :: rest) then
      match matchAfterAnchor ((c :: rest).drop sizeAnchor.length) with
      | some t => some t
      | none => searchSize rest
    else searchSize rest

/-- Per-line extraction: the `if "vcodec=mjpeg" in line and "fps=" in line`
guard followed by the regex search. -/
def lineParse (l : List Char) : Option (Nat × Nat × Nat) :=
  if strContains l mjpegTag && strContains l fpsTag then searchSize l else none

/-- `get_supported_resolutions`, as a function of the backend's stderr
lines: if no line mentions `vcodec=mjpeg` a `RuntimeError` is raised and
caught, yielding `[]`; otherwise every parseable line contributes one
capability tuple, in line order. -/
def get_supported_resolutions (lines : List (List Char)) : List (Nat × Nat × Nat) :=
  if lines.any (fun l => strContains l mjpegTag) then lines.filterMap lineParse else []

/-- Boolean form of "every tuple any line of this output parses to has
positive width, height and frame-rate". -/
def linesAllPos (lines : List (List Char)) : Bool :=
  lines.all (fun l =>
    match lineParse l with
    | some t => decide (0 < t.1) && decide (0 < t.2.1) && decide (0 < t.2.2)
    | none => true)

/-- Backend output whose only capability line advertises a zero width. -/
def zeroWidthLines : List (List Char) :=
  [" vcodec=mjpeg  min s=0x480 fps=30 max s=0x480 fps=30".toList]

/-- Backend output with a single well-formed positive capability line. -/
def goodCapLines : List (List Char) :=
  [" vcodec=mjpeg  min s=640x480 fps=30 max s=640x480 fps=30".toList]

/-! ## Device enumeration: `RecorderApp.detect_devices`

The method runs `ffmpeg -list_devices`; `none` models the exception path
(the subprocess failing or exiting non-zero under `check=True`), `some
lines` the captured stderr lines.  A device name is the text between the
first pair of double quotes on any line that mentions `(video)`. -/

def videoTag : List Char := "(video)".toList

/-- The double-quote character tested by `'"' in line`. -/
def quoteChar : Char := '"'

/-- Python `str.split(c)`: splits at every occurrence of `c`, producing one
more part than there are occurrences. -/
def splitChar (c : Char) : List Char → List (List Char)
  | [] => [[]]
  | x :: xs =>
    let r := splitChar c xs
    if x == c then [] :: r
    else
      match r with
      | [] => [[x]]
      | y :: ys => (x :: y) :: ys

/-- One line of `-list_devices` output: `line.split('"')[1]` when the line
contains both `(video)` and a quote, otherwise skipped. -/
def parseDeviceLine (l : List Char) : Option (List Char) :=
  if strContains l videoTag && strContains l [quoteChar] then
    some ((splitChar quoteChar l).getD 1 [])
  else none

def defaultCameraName : List Char := "Default Camera".toList

/-- `detect_devices` as a function of the backend outcome: the exception
path and the empty-parse path both substitute the placeholder device. -/
def detect_devices (backend : Option (List (List Char))) : List (List Char) :=
  match backend with
  | none => [defaultCameraName]
  | some lines =>
    let devices := lines.filterMap parseDeviceLine
    if devices.isEmpty then [defaultCameraName] else devices

/-- A `-list_devices` output with no video device line. -/
def noVideoLines : List (List Char) :=
  ["[dshow @ 0000] DirectShow audio devices".toList]

/-! ## Codec selection: `RecorderApp.select_codec`

The static method runs `ffmpeg -encoders` (probe 1) and, when `h264_qsv`
appears in the listing, a smoke encode of 0.1 s of black video (probe 2).
Every exception is caught and falls back to `libx264`.  The environment
record carries exactly the backend facts the code branches on; the second
component of the result counts the subprocess probes the call performed.
The source keeps no cache for this result (unlike `get_ffmpeg_path`, which
memoizes in `RecorderApp._ffmpeg_path`), so a repeated call evaluates the
whole body again. -/

def hwCodecTag : List Char := "h264_qsv".toList

structure EncEnv where
  /-- the `-encoders` subprocess ran and exited zero (`check=True`). -/
  encodersQueryOk : Bool
  /-- stdout lines of the `-encoders` listing. -/
  encoderLines : List String
  /-- the smoke-encode subprocess ran and exited zero. -/
  smokeRunOk : Bool
  /-- the smoke output file exists and has positive size. -/
  smokeOutputNonempty : Bool

/-- `select_codec`: resolved codec name plus the number of ffmpeg probe
invocations this call performed. -/
def select_codec (env : EncEnv) : String × Nat :=
  if env.encodersQueryOk && env.encoderLines.any (fun l => strContains l.data hwCodecTag) then
    if env.smokeRunOk && env.smokeOutputNonempty then ("h264_qsv", 2) else ("libx264", 2)
  else ("libx264", 1)

/-- An environment where the hardware encoder is present and works. -/
def hwEnv : EncEnv :=
  { encodersQueryOk := true
    encoderLines := [" V..... h264_qsv             H.264 (Intel Quick Sync Video)"]
    smokeRunOk := true
    smokeOutputNonempty := true }

/-! ## Encoder invocation options: `RecorderApp.start_record`

The options dictionary passed to `WriteGear`; quality is added under
`-crf` for `libx264` and `-global_quality` for `h264_qsv` (as `str`),
while `-input_framerate` keeps its integer value. -/

inductive OptVal where
  | s (v : String)
  | n (v : Int)
deriving DecidableEq

/-- The `options` dictionary built in `start_record`, in insertion order. -/
def buildOptions (codec : String) (quality : Int) (framerate : Int) : List (String × OptVal) :=
  [("-vcodec", OptVal.s codec),
   ("-preset", OptVal.s "medium"),
   ("-pix_fmt", OptVal.s "yuv420p"),
   ("-movflags", OptVal.s "+faststart"),
   ("-input_framerate", OptVal.n framerate)]
  ++ (if codec = "libx264" then [("-crf", OptVal.s (toString quality))]
      else if codec = "h264_qsv" then [("-global_quality", OptVal.s (toString quality))]
      else [])

/-! ## Recording start validation: `RecorderApp.start_record`

After parsing the resolution text, the method raises `ValueError` (caught,
reported via a message box, then `return`) when any of width, height,
frame-rate or duration is non-positive or the output path does not end in
`.mp4` after `str.lower()`.  Only past that check is the `WriteGear`
writer constructed, and only on successful construction is
`self.recording` set. -/

def extMp4 : List Char := ".mp4".toList

/-- Python `str.endswith`. -/
def endsWithChars (l pat : List Char) : Bool := leadsWith pat.reverse l.reverse

/-- Python `str.lower()` (ASCII case, which covers the paths built here). -/
def lowerChars (l : List Char) : List Char := l.map Char.toLower

/-- The `start_record` validation condition, negated as in the source
(`if w <= 0 or h <= 0 or f <= 0 or dur <= 0 or not
out.lower().endswith(EXT): raise ValueError`). -/
def validRecordParams (w h f dur : Int) (out : List Char) : Bool :=
  !(decide (w ≤ 0) || decide (h ≤ 0) || decide (f ≤ 0) || decide (dur ≤ 0)
    || !endsWithChars (lowerChars out) extMp4)

inductive StartOutcome where
  | invalidParams
  | writerFailed
  | started
deriving DecidableEq

/-- The recording-relevant fields of the application object. -/
structure RecApp where
  recording : Bool
  writer : Option Unit
deriving DecidableEq

/-- `start_record` past the path construction: validation, then writer
construction (`writerOpens` models whether `WriteGear(...)` raises), then
the transition to the Recording state.  On either failure path the method
returns before touching `self.recording` or `self.writer`. -/
def start_record (s : RecApp) (w h f dur : Int) (out : List Char) (writerOpens : Bool) :
    RecApp × StartOutcome :=
  if !validRecordParams w h f dur out then (s, StartOutcome.invalidParams)
  else if writerOpens then ({ recording := true, writer := some () }, StartOutcome.started)
  else (s, StartOutcome.writerFailed)

/-- A path ending in upper-case `.MP4`, accepted case-insensitively. -/
def demoOutPath : List Char := "recordings/20250101_120000.MP4".toList

/-! ## Recording termination: `RecorderApp.stop_record` and its callers

`stop_record` sets `self.recording = False` and, whenever `self.writer`
is non-`None`, calls `self.writer.close()`; it never clears
`self.writer`.  `record_loop` calls `stop_record` once its `while
self.recording and time.time() - start_time < dur` loop exits — whether
the loop ended by timeout, by `stream.read()` returning `None`, or
because someone already set `recording = False`.  `closeCount` counts the
`writer.close()` invocations a path performs. -/

structure AppState where
  recording : Bool
  writer : Option Unit
  closeCount : Nat
deriving DecidableEq

/-- `stop_record`: flag down, close the writer if present, keep the
writer reference. -/
def stop_record (s : AppState) : AppState :=
  { recording := false
    writer := s.writer
    closeCount := s.closeCount + (if s.writer.isSome then 1 else 0) }

/-- `record_loop` exits on its own (duration elapsed): its trailing
`self.stop_record()` is the only close. -/
def naturalTimeoutEnd (s : AppState) : AppState := stop_record s

/-- `record_loop` exits because `stream.read()` returned `None`: again a
single trailing `stop_record`. -/
def sourceExhaustedEnd (s : AppState) : AppState := stop_record s

/-- The stop button invokes `stop_record` directly; `record_loop` then
observes `recording = False`, exits, and invokes `stop_record` again. -/
def explicitStopEnd (s : AppState) : AppState := stop_record (stop_record s)

/-- `on_close` invokes `stop_record` when recording; `record_loop` then
exits and invokes `stop_record` again. -/
def windowCloseEnd (s : AppState) : AppState := stop_record (stop_record s)

/-- An app state mid-recording with an open writer. -/
def recActive : AppState := { recording := true, writer := some (), closeCount := 0 }

/-! ## The filter chain: `filters` (ClickRec_60_test.py)

`filters(image, vascular, gray, clahe_color, clahe_l)` first copies the
caller's NumPy array into a fresh `cv2.UMat`, conditionally applies the
four stages in the fixed order vascular → colour-CLAHE → luminance-CLAHE
→ grayscale, and finally copies the device buffer back into a fresh NumPy
array via `.get()`.  Every OpenCV call used (`cvtColor`, `split`,
`merge`, `GaussianBlur`, `addWeighted`, `compare`, the bitwise ops,
`min`/`max`, `clahe.apply`) is invoked without a destination argument and
so allocates its output; no call writes into an existing buffer.

We embed this at the buffer level: a `Heap` maps buffer ids to pixel
data, every operation allocates a fresh id, and the pixel-level action of
the four stages — OpenCV numerics that the claims never inspect — is a
parameter `FilterOps`. -/

/-- Raw bytes of a pixel buffer. -/
abbrev FrameData := List Nat

/-- Pixel-level action of the four stages (OpenCV internals). -/
structure FilterOps where
  vascular : FrameData → FrameData
  claheRGB : FrameData → FrameData
  claheL : FrameData → FrameData
  grayF : FrameData → FrameData

/-- Allocation-counter heap of pixel buffers. -/
structure Heap where
  nextId : Nat
  store : List (Nat × FrameData)

def Heap.lookup (hp : Heap) (b : Nat) : Option FrameData :=
  (hp.store.find? (fun p => p.1 == b)).map Prod.snd

def Heap.alloc (hp : Heap) (d : FrameData) : Heap × Nat :=
  ({ nextId := hp.nextId + 1, store := (hp.nextId, d) :: hp.store }, hp.nextId)

/-- Well-formedness: every allocated id is below the allocation counter. -/
def Heap.WF (hp : Heap) : Prop := ∀ p ∈ hp.store, p.1 < hp.nextId

instance (hp : Heap) : Decidable hp.WF := by
  unfold Heap.WF; infer_instance

/-- One image operation: read a buffer, transform its content, allocate
the result as a fresh buffer (how every OpenCV call here behaves). -/
def stageApply (f : FrameData → FrameData) (hp : Heap) (b : Nat) : Heap × Nat :=
  hp.alloc (f ((hp.lookup b).getD []))

/-- `if flag: image = stage(image)` on the working buffer. -/
def condStage (c : Bool) (f : FrameData → FrameData) (p : Heap × Nat) : Heap × Nat :=
  if c then stageApply f p.1 p.2 else p

/-- `filters`: UMat upload (a copy), the four conditional stages in source
order, then `.get()` download (a copy). -/
def filters (ops : FilterOps) (hp : Heap) (image : Nat)
    (vascular gray clahe_color clahe_l : Bool) : Heap × Nat :=
  let p := stageApply id hp image
  let p := condStage vascular ops.vascular p
  let p := condStage clahe_color ops.claheRGB p
  let p := condStage clahe_l ops.claheL p
  let p := condStage gray ops.grayF p
  stageApply id p.1 p.2

/-- Content-level composition of the same stages in the same order. -/
def applyFilters (ops : FilterOps) (vascular gray clahe_color clahe_l : Bool)
    (d : FrameData) : FrameData :=
  let d := if vascular then ops.vascular d else d
  let d := if clahe_color then ops.claheRGB d else d
  let d := if clahe_l then ops.claheL d else d
  if gray then ops.grayF d else d

/-- Concrete stage actions for evaluating witnesses. -/
def demoOps : FilterOps :=
  { vascular := fun d => d.map (· + 1)
    claheRGB := fun d => d.map (· * 2)
    claheL := fun d => d.map (· + 3)
    grayF := fun d => d.map (fun _ => 0) }

/-- A heap holding one three-byte frame in buffer 0. -/
def demoHeap : Heap := { nextId := 1, store := [(0, [10, 20, 30])] }

/-! ## Capture, preview and recording loops

`start_preview` opens one `CamGear` stream and starts `preview_loop` on
its own thread; `start_record` (after validation) starts `record_loop` on
another thread against the same `self.stream`.  Each loop iteration pulls
one frame with `self.stream.read()` — a queue pop, so concurrent readers
receive distinct frames — applies `filters` to the frame it pulled, and
hands the result to its own sink only (`preview_loop` to the canvas via
`self.latest_frame`, `record_loop` to `self.writer.write`).  We model the
shared stream as the list of frames remaining, an interleaving as a list
of loop-iteration steps, and count filter-chain applications. -/

/-- Snapshot of the four UI toggle variables read each iteration. -/
structure FilterCfg where
  vascular : Bool
  gray : Bool
  clahe_color : Bool
  clahe_l : Bool

structure PipeState where
  /-- frames the capture stream has yet to deliver. -/
  source : List FrameData
  /-- filtered frames handed to the preview sink, in order. -/
  previewed : List FrameData
  /-- filtered frames handed to the recording sink, in order. -/
  written : List FrameData
  previewing : Bool
  recording : Bool
  /-- number of filter-chain applications performed so far. -/
  filterCount : Nat
deriving DecidableEq

/-- One iteration of `preview_loop`: guarded by `self.previewing`; pulls
a frame (none left models `read()` returning `None`, which breaks the
loop), filters it once, delivers to the preview sink. -/
def previewIter (ops : FilterOps) (cfg : FilterCfg) (s : PipeState) : PipeState :=
  if s.previewing then
    match s.source with
    | [] => s
    | f :: rest =>
      { s with
        source := rest
        previewed := s.previewed ++ [applyFilters ops cfg.vascular cfg.gray cfg.clahe_color cfg.clahe_l f]
        filterCount := s.filterCount + 1 }
  else s

/-- One iteration of `record_loop`: guarded by `self.recording` (the
elapsed-time bound is part of the same guard; the scheduler decides how
often this step runs); pulls a frame, filters it once, writes it to the
encoder sink. -/
def recordIter (ops : FilterOps) (cfg : FilterCfg) (s : PipeState) : PipeState :=
  if s.recording then
    match s.source with
    | [] => s
    | f :: rest =>
      { s with
        source := rest
        written := s.written ++ [applyFilters ops cfg.vascular cfg.gray cfg.clahe_color cfg.clahe_l f]
        filterCount := s.filterCount + 1 }
  else s

inductive LoopStep where
  | preview
  | record

/-- Runs an interleaving of the two loops over the shared stream. -/
def runPipe (ops : FilterOps) (cfg : FilterCfg) : List LoopStep → PipeState → PipeState
  | [], s => s
  | LoopStep.preview :: rest, s => runPipe ops cfg rest (previewIter ops cfg s)
  | LoopStep.record :: rest, s => runPipe ops cfg rest (recordIter ops cfg s)

/-- All four filter toggles off. -/
def cfgOff : FilterCfg := ⟨false, false, false, false⟩

/-- Previewing and recording both active, one frame available. -/
def pipeStart : PipeState :=
  { source := [[1, 2, 3]]
    previewed := []
    written := []
    previewing := true
    recording := true
    filterCount := 0 }

/-! ## Preview canvas geometry: `RecorderApp.start_preview`

`canvas_width = PREVIEW_WIDTH; canvas_height = int(canvas_width /
(w / h))`.  The arithmetic is embedded exactly over the integers:
`int(1280 / (w/h))` truncates `1280·h/w` toward zero, which for the
positive operands here is the floor, i.e. `Nat` division. -/

def PREVIEW_WIDTH : Nat := 1280

/-- The `(width, height)` the preview canvas is configured to. -/
def previewCanvas (w h : Nat) : Nat × Nat :=
  (PREVIEW_WIDTH, PREVIEW_WIDTH * h / w)

/-- Invariant carried through the filter chain: the heap is well-formed,
the caller's buffer `i` still holds `d`, and `i` predates the allocation
counter (so future allocations cannot collide with it). -/
def InvP (i : Nat) (d : FrameData) (p : Heap × Nat) : Prop :=
  p.1.WF ∧ p.1.lookup i = some d ∧ i < p.1.nextId

/-! ## Theorems -/

theorem stageApply_snd (f : FrameData → FrameData) (hp : Heap) (b : Nat) :
    (stageApply f hp b).2 = hp.nextId := rfl

theorem stageApply_nextId (f : FrameData → FrameData) (hp : Heap) (b : Nat) :
    (stageApply f hp b).1.nextId = hp.nextId + 1 := rfl

theorem stageApply_lookup_new (f : FrameData → FrameData) (hp : Heap) (b : Nat) :
    (stageApply f hp b).1.lookup (stageApply f hp b).2 = some (f ((hp.lookup b).getD [])) := by
  simp [stageApply, Heap.alloc, Heap.lookup, List.find?]

theorem stageApply_lookup_lt (f : FrameData → FrameData) (hp : Heap) (b x : Nat)
    (hx : x < hp.nextId) :
    (stageApply f hp b).1.lookup x = hp.lookup x := by
  have hne : (hp.nextId == x) = false := by
    simp only [beq_eq_false_iff_ne, ne_eq]
    omega
  simp [stageApply, Heap.alloc, Heap.lookup, List.find?, hne]

theorem stageApply_WF (f : FrameData → FrameData) (hp : Heap) (b : Nat) (hw : hp.WF) :
    (stageApply f hp b).1.WF := by
  intro p hm
  simp only [stageApply, Heap.alloc, List.mem_cons] at hm
  rcases hm with h | h
  · subst h
    simp [stageApply, Heap.alloc]
  · have := hw p h
    simp only [stageApply, Heap.alloc]
    omega

theorem Heap.lookup_lt_nextId {hp : Heap} {x : Nat} {d : FrameData}
    (hw : hp.WF) (hl : hp.lookup x = some d) : x < hp.nextId := by
  unfold Heap.lookup at hl
  obtain ⟨pr, hfind, -⟩ := Option.map_eq_some'.mp hl
  have hmem := List.mem_of_find?_eq_some hfind
  have hpred := List.find?_some hfind
  have hx : pr.1 = x := by simpa using hpred
  have := hw pr hmem
  omega

theorem stageApply_inv {i : Nat} {d : FrameData} (f : FrameData → FrameData)
    {p : Heap × Nat} (h : InvP i d p) : InvP i d (stageApply f p.1 p.2) := by
  obtain ⟨hw, hl, hi⟩ := h
  refine ⟨stageApply_WF _ _ _ hw, ?_, ?_⟩
  · rw [stageApply_lookup_lt _ _ _ _ hi]
    exact hl
  · rw [stageApply_nextId]
    omega

theorem condStage_inv {i : Nat} {d : FrameData} (c : Bool) (f : FrameData → FrameData)
    {p : Heap × Nat} (h : InvP i d p) : InvP i d (condStage c f p) := by
  cases c
  · simpa [condStage] using h
  · simpa [condStage] using stageApply_inv f h

theorem condStage_false (f : FrameData → FrameData) (p : Heap × Nat) :
    condStage false f p = p := rfl

/-- With every flag off the chain is upload-then-download: the result is
a fresh buffer holding the caller's bytes, and the caller's buffer is
untouched. -/
theorem filters_off_spec (ops : FilterOps) (hp : Heap) (i : Nat) (d : FrameData)
    (hw : hp.WF) (hl : hp.lookup i = some d) :
    (filters ops hp i false false false false).1.WF
    ∧ (filters ops hp i false false false false).1.lookup (filters ops hp i false false false false).2 = some d
    ∧ (filters ops hp i false false false false).1.lookup i = some d
    ∧ (filters ops hp i false false false false).2 ≠ i := by
  have hi : i < hp.nextId := Heap.lookup_lt_nextId hw hl
  have hred : filters ops hp i false false false false
      = stageApply id (stageApply id hp i).1 (stageApply id hp i).2 := by
    simp [filters, condStage_false]
  rw [hred]
  have hw1 : (stageApply id hp i).1.WF := stageApply_WF _ _ _ hw
  have hl1 : (stageApply id hp i).1.lookup (stageApply id hp i).2 = some d := by
    rw [stageApply_lookup_new]
    simp [hl]
  refine ⟨stageApply_WF _ _ _ hw1, ?_, ?_, ?_⟩
  · rw [stageApply_lookup_new]
    simp [hl1]
  · rw [stageApply_lookup_lt, stageApply_lookup_lt]
    · exact hl
    · exact hi
    · rw [stageApply_nextId]
      omega
  · rw [stageApply_snd, stageApply_nextId]
    omega

/-- Claim C10: whatever combination of the four flags is set, `filters`
leaves the caller's input buffer byte-identical and returns a distinct
buffer. -/
theorem c10_no_mutation (ops : FilterOps) (hp : Heap) (i : Nat) (d : FrameData)
    (v g cc cl : Bool) (hw : hp.WF) (hl : hp.lookup i = some d) :
    (filters ops hp i v g cc cl).1.lookup i = some d
    ∧ (filters ops hp i v g cc cl).2 ≠ i := by
  have h0 : InvP i d (hp, i) := ⟨hw, hl, Heap.lookup_lt_nextId hw hl⟩
  have h1 : InvP i d (stageApply id hp i) := stageApply_inv id h0
  have h2 := condStage_inv v ops.vascular h1
  have h3 := condStage_inv cc ops.claheRGB h2
  have h4 := condStage_inv cl ops.claheL h3
  have h5 := condStage_inv g ops.grayF h4
  have h6 := stageApply_inv id h5
  constructor
  · simp only [filters]
    exact h6.2.1
  · simp only [filters]
    rw [stageApply_snd]
    have := h5.2.2
    omega

/-- Witness for C10: a concrete heap, frame and all-flags-on call. -/
theorem c10_no_mutation_witness :
    demoHeap.WF ∧ demoHeap.lookup 0 = some [10, 20, 30]
    ∧ ((filters demoOps demoHeap 0 true true true true).1.lookup 0 = some [10, 20, 30]
       ∧ (filters demoOps demoHeap 0 true true true true).2 ≠ 0) :=
  ⟨by decide, by decide,
   c10_no_mutation demoOps demoHeap 0 [10, 20, 30] true true true true (by decide) (by decide)⟩

/-- Claim C6: with all four flags disabled `filters` returns a frame
byte-identical to the input, without mutating the caller's buffer, and a
second all-disabled application of the chain still returns the original
bytes. -/
theorem c6_all_disabled_identity (ops : FilterOps) (hp : Heap) (i : Nat) (d : FrameData)
    (hw : hp.WF) (hl : hp.lookup i = some d) :
    (filters ops hp i false false false false).1.lookup (filters ops hp i false false false false).2 = some d
    ∧ (filters ops hp i false false false false).1.lookup i = some d
    ∧ (filters ops hp i false false false false).2 ≠ i
    ∧ (filters ops (filters ops hp i false false false false).1
         (filters ops hp i false false false false).2 false false false false).1.lookup
        (filters ops (filters ops hp i false false false false).1
           (filters ops hp i false false false false).2 false false false false).2 = some d := by
  obtain ⟨hw1, hres, hkeep, hne⟩ := filters_off_spec ops hp i d hw hl
  obtain ⟨-, hres2, -, -⟩ :=
    filters_off_spec ops (filters ops hp i false false false false).1
      (filters ops hp i false false false false).2 d hw1 hres
  exact ⟨hres, hkeep, hne, hres2⟩

/-- Witness for C6: the concrete heap and frame, all flags off. -/
theorem c6_all_disabled_identity_witness :
    demoHeap.WF ∧ demoHeap.lookup 0 = some [10, 20, 30]
    ∧ ((filters demoOps demoHeap 0 false false false false).1.lookup (filters demoOps demoHeap 0 false false false false).2 = some [10, 20, 30]
       ∧ (filters demoOps demoHeap 0 false false false false).1.lookup 0 = some [10, 20, 30]
       ∧ (filters demoOps demoHeap 0 false false false false).2 ≠ 0
       ∧ (filters demoOps (filters demoOps demoHeap 0 false false false false).1
            (filters demoOps demoHeap 0 false false false false).2 false false false false).1.lookup
           (filters demoOps (filters demoOps demoHeap 0 false false false false).1
              (filters demoOps demoHeap 0 false false false false).2 false false false false).2 = some [10, 20, 30]) :=
  ⟨by decide, by decide,
   c6_all_disabled_identity demoOps demoHeap 0 [10, 20, 30] (by decide) (by decide)⟩

/-- One `preview_loop` iteration filters each frame it consumes exactly
once, delivers it to exactly one sink, and never touches the recording
sink. -/
theorem previewIter_step (ops : FilterOps) (cfg : FilterCfg) (s : PipeState) :
    (previewIter ops cfg s).filterCount + (previewIter ops cfg s).source.length
      = s.filterCount + s.source.length
    ∧ (previewIter ops cfg s).previewed.length + (previewIter ops cfg s).written.length
        + (previewIter ops cfg s).source.length
      = s.previewed.length + s.written.length + s.source.length
    ∧ (previewIter ops cfg s).written = s.written := by
  unfold previewIter
  by_cases hb : s.previewing = true
  · cases hsrc : s.source with
    | nil => simp [hb, hsrc]
    | cons f rest =>
      simp [hb, hsrc, List.length_append]
      omega
  · simp [hb]

/-- One `record_loop` iteration filters each frame it consumes exactly
once, delivers it to exactly one sink, and never touches the preview
sink. -/
theorem recordIter_step (ops : FilterOps) (cfg : FilterCfg) (s : PipeState) :
    (recordIter ops cfg s).filterCount + (recordIter ops cfg s).source.length
      = s.filterCount + s.source.length
    ∧ (recordIter ops cfg s).previewed.length + (recordIter ops cfg s).written.length
        + (recordIter ops cfg s).source.length
      = s.previewed.length + s.written.length + s.source.length
    ∧ (recordIter ops cfg s).previewed = s.previewed := by
  unfold recordIter
  by_cases hb : s.recording = true
  · cases hsrc : s.source with
    | nil => simp [hb, hsrc]
    | cons f rest =>
      simp [hb, hsrc, List.length_append]
      omega
  · simp [hb]

/-- Conservation over any interleaving of the two loops. -/
theorem runPipe_counts (ops : FilterOps) (cfg : FilterCfg) (sched : List LoopStep)
    (s : PipeState) :
    (runPipe ops cfg sched s).filterCount + (runPipe ops cfg sched s).source.length
      = s.filterCount + s.source.length
    ∧ (runPipe ops cfg sched s).previewed.length + (runPipe ops cfg sched s).written.length
        + (runPipe ops cfg sched s).source.length
      = s.previewed.length + s.written.length + s.source.length := by
  induction sched generalizing s with
  | nil => exact ⟨rfl, rfl⟩
  | cons st rest ih =>
    cases st with
    | preview =>
      have hstep := previewIter_step ops cfg s
      have hrest := ih (previewIter ops cfg s)
      simp only [runPipe]
      omega
    | record =>
      have hstep := recordIter_step ops cfg s
      have hrest := ih (recordIter ops cfg s)
      simp only [runPipe]
      omega

/-- Claim C1, counterexample: with recording and previewing both active,
the record loop pulls the only frame, filters it, and writes it to the
encoder sink alone — the preview sink never receives that filtered
frame, so a pulled frame's single filtered result is not fanned out to
both sinks. -/
theorem c1_fanout_counterexample :
    (runPipe demoOps cfgOff [LoopStep.record] pipeStart).written = [[1, 2, 3]]
    ∧ (runPipe demoOps cfgOff [LoopStep.record] pipeStart).previewed = []
    ∧ ¬(∀ fr ∈ (runPipe demoOps cfgOff [LoopStep.record] pipeStart).written,
          fr ∈ (runPipe demoOps cfgOff [LoopStep.record] pipeStart).previewed) := by
  decide

/-- Claim C1, amended: the preview loop and the record loop pull frames
from the shared stream independently; over any interleaving, every
consumed frame is filtered exactly once and delivered to exactly one
sink — the sink of the loop that pulled it — and a record iteration
never feeds the preview sink nor vice versa. -/
theorem c1_per_loop_filtering (ops : FilterOps) (cfg : FilterCfg)
    (sched : List LoopStep) (s : PipeState) :
    (runPipe ops cfg sched s).filterCount + (runPipe ops cfg sched s).source.length
      = s.filterCount + s.source.length
    ∧ (runPipe ops cfg sched s).previewed.length + (runPipe ops cfg sched s).written.length
        + (runPipe ops cfg sched s).source.length
      = s.previewed.length + s.written.length + s.source.length
    ∧ (recordIter ops cfg s).previewed = s.previewed
    ∧ (previewIter ops cfg s).written = s.written :=
  ⟨(runPipe_counts ops cfg sched s).1, (runPipe_counts ops cfg sched s).2,
   (recordIter_step ops cfg s).2.2, (previewIter_step ops cfg s).2.2⟩

/-- Claim C2, counterexample: on the explicit-stop path (`stop_record`
from the button, then `record_loop`'s trailing `stop_record`) the encoder
writer is closed twice, not exactly once — `self.writer` is never
cleared, so the second call closes it again. -/
theorem c2_close_twice_counterexample :
    (explicitStopEnd recActive).closeCount = 2
    ∧ (explicitStopEnd recActive).closeCount ≠ 1 := by
  decide

/-- Claim C2, amended: every termination path ends with the recording
flag false and the writer closed at least once, but `stop_record` is not
idempotent in its close effect: the natural-timeout and
source-exhaustion paths close the writer exactly once, while the
explicit-stop and window-close paths close it twice, because the writer
reference survives the first call. -/
theorem c2_termination_closes (s : AppState) (hw : s.writer.isSome = true) :
    (naturalTimeoutEnd s).closeCount = s.closeCount + 1
    ∧ (sourceExhaustedEnd s).closeCount = s.closeCount + 1
    ∧ (explicitStopEnd s).closeCount = s.closeCount + 2
    ∧ (windowCloseEnd s).closeCount = s.closeCount + 2
    ∧ (naturalTimeoutEnd s).recording = false
    ∧ (sourceExhaustedEnd s).recording = false
    ∧ (explicitStopEnd s).recording = false
    ∧ (windowCloseEnd s).recording = false := by
  simp [naturalTimeoutEnd, sourceExhaustedEnd, explicitStopEnd, windowCloseEnd,
    stop_record, hw]

/-- Witness for C2's amended statement at the concrete recording state. -/
theorem c2_termination_closes_witness :
    recActive.writer.isSome = true
    ∧ ((naturalTimeoutEnd recActive).closeCount = recActive.closeCount + 1
       ∧ (sourceExhaustedEnd recActive).closeCount = recActive.closeCount + 1
       ∧ (explicitStopEnd recActive).closeCount = recActive.closeCount + 2
       ∧ (windowCloseEnd recActive).closeCount = recActive.closeCount + 2
       ∧ (naturalTimeoutEnd recActive).recording = false
       ∧ (sourceExhaustedEnd recActive).recording = false
       ∧ (explicitStopEnd recActive).recording = false
       ∧ (windowCloseEnd recActive).recording = false) :=
  ⟨by decide, c2_termination_closes recActive (by decide)⟩

/-- Either branch of `select_codec` yields one of the two codec names. -/
theorem select_codec_choices (env : EncEnv) :
    (select_codec env).1 = "h264_qsv" ∨ (select_codec env).1 = "libx264" := by
  unfold select_codec
  split
  · split
    · exact Or.inl rfl
    · exact Or.inr rfl
  · exact Or.inr rfl

/-- Claim C3, counterexample: on a machine where the hardware encoder is
present and passes the smoke test, one `select_codec` call performs two
backend probes, and a second call performs them again (four probes over
the two calls) — nothing is cached, so the claimed probe-free second
call does not exist. -/
theorem c3_no_memo_counterexample :
    (select_codec hwEnv).1 = "h264_qsv"
    ∧ (select_codec hwEnv).2 = 2
    ∧ (select_codec hwEnv).2 + (select_codec hwEnv).2 ≠ (select_codec hwEnv).2 := by
  decide

/-- Claim C3, amended: `select_codec` is deterministic — under unchanged
backend conditions a repeated call returns the same choice, always one of
the two codecs — but it is not memoized: every call performs at least one
backend probe, and exactly two whenever the encoder listing succeeds and
mentions the hardware encoder. -/
theorem c3_reprobe_each_call (env : EncEnv) :
    1 ≤ (select_codec env).2
    ∧ ((select_codec env).1 = "h264_qsv" ∨ (select_codec env).1 = "libx264")
    ∧ ((env.encodersQueryOk
          && env.encoderLines.any (fun l => strContains l.data hwCodecTag)) = true
        → (select_codec env).2 = 2) := by
  refine ⟨?_, select_codec_choices env, ?_⟩
  · unfold select_codec
    split
    · split
      · exact Nat.le_of_eq rfl |>.trans (by norm_num)
      · exact Nat.le_of_eq rfl |>.trans (by norm_num)
    · exact Nat.le_refl 1
  · intro hcond
    unfold select_codec
    rw [if_pos hcond]
    split
    · rfl
    · rfl

/-- Witness for C3's amended statement at the hardware-present
environment. -/
theorem c3_reprobe_each_call_witness :
    1 ≤ (select_codec hwEnv).2
    ∧ ((select_codec hwEnv).1 = "h264_qsv" ∨ (select_codec hwEnv).1 = "libx264")
    ∧ (select_codec hwEnv).2 = 2 := by
  obtain ⟨a, b, c⟩ := c3_reprobe_each_call hwEnv
  exact ⟨a, b, c (by decide)⟩

/-- Claim C4, counterexample: the line-oriented extraction accepts a
backend line advertising a zero width — `\d+` matches `0` — so the
returned capability tuple violates `width > 0`. -/
theorem c4_zero_width_counterexample :
    get_supported_resolutions zeroWidthLines = [(0, 480, 30)]
    ∧ ¬(∀ t ∈ get_supported_resolutions zeroWidthLines,
          0 < t.1 ∧ 0 < t.2.1 ∧ 0 < t.2.2) := by
  decide

/-- Claim C4, amended: every returned tuple is the parse of some output
line, so whenever each parseable line of the backend output carries
positive numerals — which is what an actual capture backend reports — every
returned capability tuple satisfies `width > 0`, `height > 0` and
`fps > 0`; the extraction itself never rejects a zero numeral. -/
theorem c4_positive_when_lines_positive (lines : List (List Char))
    (hpos : linesAllPos lines = true) :
    ∀ t ∈ get_supported_resolutions lines, 0 < t.1 ∧ 0 < t.2.1 ∧ 0 < t.2.2 := by
  intro t ht
  unfold get_supported_resolutions at ht
  split at ht
  · obtain ⟨l, hl, hp⟩ := List.mem_filterMap.mp ht
    have hall := (List.all_eq_true.mp hpos) l hl
    rw [hp] at hall
    simpa [and_assoc] using hall
  · exact absurd ht (List.not_mem_nil t)

/-- Witness for C4's amended statement at a concrete well-formed backend
output. -/
theorem c4_positive_when_lines_positive_witness :
    linesAllPos goodCapLines = true ∧ (0 < 640 ∧ 0 < 480 ∧ 0 < 30) := by
  refine ⟨by decide, ?_⟩
  exact c4_positive_when_lines_positive goodCapLines (by decide) (640, 480, 30) (by decide)

/-- Claim C5: the quality value is passed as `-global_quality` for the
hardware choice and as `-crf` for the software fallback; each invocation
carries exactly its own parameter name, the other name is absent, and the
two names are distinct for every quality value. -/
theorem c5_quality_parameter_mapping (q fr : Int) :
    (buildOptions "h264_qsv" q fr).lookup "-global_quality" = some (OptVal.s (toString q))
    ∧ (buildOptions "h264_qsv" q fr).lookup "-crf" = none
    ∧ (buildOptions "libx264" q fr).lookup "-crf" = some (OptVal.s (toString q))
    ∧ (buildOptions "libx264" q fr).lookup "-global_quality" = none
    ∧ ("-global_quality" : String) ≠ "-crf" := by
  refine ⟨?_, ?_, ?_, ?_, by decide⟩ <;> rfl

/-- Claim C7: device enumeration never yields an empty sequence — the
exception path and the no-video-line path both substitute the
single-element placeholder list. -/
theorem c7_placeholder_device :
    (∀ b, detect_devices b ≠ [])
    ∧ detect_devices none = [defaultCameraName]
    ∧ (∀ lines, lines.filterMap parseDeviceLine = []
        → detect_devices (some lines) = [defaultCameraName]) := by
  refine ⟨?_, rfl, ?_⟩
  · intro b
    cases b with
    | none => simp [detect_devices]
    | some lines =>
      simp only [detect_devices]
      cases hfm : lines.filterMap parseDeviceLine with
      | nil => simp [hfm]
      | cons a as => simp [hfm]
  · intro lines hl
    simp [detect_devices, hl]

/-- Witness for C7 at the failure outcome and a concrete no-video
output. -/
theorem c7_placeholder_device_witness :
    detect_devices none ≠ []
    ∧ detect_devices none = [defaultCameraName]
    ∧ detect_devices (some noVideoLines) = [defaultCameraName] :=
  ⟨c7_placeholder_device.1 none, c7_placeholder_device.2.1,
   c7_placeholder_device.2.2 noVideoLines (by decide)⟩

/-- Claim C8, counterexample: at the capture resolution 1366×768 the
configured canvas is 1280×719 (the height is truncated by `int`), whose
aspect ratio differs from 1366/768. -/
theorem c8_aspect_counterexample :
    ¬(((previewCanvas 1366 768).1 : ℚ) / ((previewCanvas 1366 768).2 : ℚ)
        = (1366 : ℚ) / 768) := by
  have h1 : (previewCanvas 1366 768).1 = 1280 := by decide
  have h2 : (previewCanvas 1366 768).2 = 719 := by decide
  rw [h1, h2]
  norm_num

/-- Claim C8, amended: the canvas is `PREVIEW_WIDTH` wide and
`⌊PREVIEW_WIDTH·h/w⌋` tall, so its aspect ratio equals `w/h` exactly
when `w` divides `PREVIEW_WIDTH·h` (which holds for the common 4:3 and
16:9 capture modes); otherwise the truncation makes the two ratios
differ. -/
theorem c8_aspect_when_divisible (w h : Nat) (_hw : 0 < w) (hh : 0 < h)
    (hdvd : w ∣ PREVIEW_WIDTH * h) :
    ((previewCanvas w h).1 : ℚ) / ((previewCanvas w h).2 : ℚ) = (w : ℚ) / (h : ℚ) := by
  have hch : PREVIEW_WIDTH * h / w * w = PREVIEW_WIDTH * h := Nat.div_mul_cancel hdvd
  have hpos : 0 < PREVIEW_WIDTH * h := by
    have h0 : 0 < PREVIEW_WIDTH := by norm_num [PREVIEW_WIDTH]
    exact Nat.mul_pos h0 hh
  have hchpos : 0 < PREVIEW_WIDTH * h / w := by
    rcases Nat.eq_zero_or_pos (PREVIEW_WIDTH * h / w) with h0 | h1
    · rw [h0, Nat.zero_mul] at hch
      omega
    · exact h1
  simp only [previewCanvas]
  rw [div_eq_div_iff]
  · have hc := congrArg (fun n : Nat => (n : ℚ)) hch
    push_cast at hc
    linarith
  · exact_mod_cast hchpos.ne'
  · exact_mod_cast hh.ne'

/-- Witness for C8's amended statement at 640×480. -/
theorem c8_aspect_when_divisible_witness :
    0 < 640 ∧ 0 < 480 ∧ 640 ∣ PREVIEW_WIDTH * 480
    ∧ ((previewCanvas 640 480).1 : ℚ) / ((previewCanvas 640 480).2 : ℚ)
        = (640 : ℚ) / (480 : ℚ) :=
  ⟨by decide, by decide, ⟨960, by norm_num [PREVIEW_WIDTH]⟩,
   c8_aspect_when_divisible 640 480 (by decide) (by decide) ⟨960, by norm_num [PREVIEW_WIDTH]⟩⟩

/-- The source's refusal test, spelt as the positive condition the claim
states. -/
theorem validRecordParams_iff (w h f dur : Int) (out : List Char) :
    validRecordParams w h f dur out = true
    ↔ (0 < w ∧ 0 < h ∧ 0 < f ∧ 0 < dur
       ∧ endsWithChars (lowerChars out) extMp4 = true) := by
  simp only [validRecordParams, Bool.not_eq_true', Bool.or_eq_false_iff,
    Bool.not_eq_false, Bool.not_eq_false', decide_eq_false_iff_not, Int.not_le]
  tauto

/-- Claim C9: starting a recording validates first — a non-positive
width, height, frame-rate or duration, or an output path whose
lower-cased form does not end in `.mp4`, makes `start_record` report
invalid parameters, construct no writer and leave the recording flag
false; with valid parameters the validation step never refuses. -/
theorem c9_start_validation (s : RecApp) (w h f dur : Int) (out : List Char) (wo : Bool)
    (hrec : s.recording = false) :
    (¬(0 < w ∧ 0 < h ∧ 0 < f ∧ 0 < dur ∧ endsWithChars (lowerChars out) extMp4 = true) →
      start_record s w h f dur out wo = (s, StartOutcome.invalidParams)
      ∧ (start_record s w h f dur out wo).1.writer = s.writer
      ∧ (start_record s w h f dur out wo).1.recording = false)
    ∧ ((0 < w ∧ 0 < h ∧ 0 < f ∧ 0 < dur ∧ endsWithChars (lowerChars out) extMp4 = true) →
      (start_record s w h f dur out wo).2 ≠ StartOutcome.invalidParams) := by
  constructor
  · intro hbad
    have hv : validRecordParams w h f dur out = false := by
      cases hvb : validRecordParams w h f dur out
      · rfl
      · exact absurd ((validRecordParams_iff w h f dur out).mp hvb) hbad
    simp [start_record, hv, hrec]
  · intro hgood
    have hv : validRecordParams w h f dur out = true :=
      (validRecordParams_iff w h f dur out).mpr hgood
    simp only [start_record, hv, Bool.not_true, Bool.false_eq_true, if_false]
    cases wo <;> simp

/-- Witness for C9 at a zero-width request against an idle app. -/
theorem c9_start_validation_witness :
    (RecApp.mk false none).recording = false
    ∧ ¬((0 : Int) < 0 ∧ (0 : Int) < 480 ∧ (0 : Int) < 30 ∧ (0 : Int) < 60
        ∧ endsWithChars (lowerChars demoOutPath) extMp4 = true)
    ∧ (start_record (RecApp.mk false none) 0 480 30 60 demoOutPath true
          = (RecApp.mk false none, StartOutcome.invalidParams)
       ∧ (start_record (RecApp.mk false none) 0 480 30 60 demoOutPath true).1.writer
          = (RecApp.mk false none).writer
       ∧ (start_record (RecApp.mk false none) 0 480 30 60 demoOutPath true).1.recording
          = false) :=
  ⟨rfl, by decide,
   (c9_start_validation (RecApp.mk false none) 0 480 30 60 demoOutPath true rfl).1 (by decide)⟩
